import Mathlib

/-!
# Verification of UniTorch configuration / processing glue code

Shallow embedding of the parts of `fuliucansheng/UniTorch` that the claims
concern:

* `unitorch/models/diffusers/processing_controlnet_xl.py`
  (`ControlNetXLProcessor`: `__init__`, `text2image`, `text2image_inputs`,
  `inpainting_inputs`);
* `unitorch/models/diffusers/modeling_controlnet.py` and
  `modeling_controlnet_xl.py` (state-dict renaming tables, scheduler
  resolution, `generate`);
* `unitorch/cli/models/t5/processing.py`, `unitorch/cli/models/siglip/modeling.py`,
  `unitorch/cli/pipelines/multicontrolnet_xl/inpainting.py`
  (`from_core_configure` configuration resolution).

External libraries (`torch`, `transformers`, `diffusers`) and repository
helpers that are not part of the analysed sources (`pop_value`,
`nested_dict_value`, `config.getoption`, `cached_path`, `load_weight`,
`VaeImageProcessor`, `HfTextClassificationProcessor`) are modelled
abstractly; each such definition carries a doc comment saying so.

Tensors are modelled as lists of rationals; Python exceptions as an
`Except` error type.
-/

/-- Python exceptions relevant to the embedded code. -/
inductive PyErr where
  /-- `AttributeError: '...' object has no attribute name`. -/
  | attributeError (name : String)
  /-- `TypeError` (e.g. adding a tuple and a list). -/
  | typeError
  deriving DecidableEq, Repr

/-- A PIL image: width, height and mode (`"RGB"`, `"L"`, ...).
Pixel contents are irrelevant to the embedded control flow. -/
structure PILImage where
  width : Nat
  height : Nat
  mode : String
  deriving DecidableEq, Repr

/-- `Image.convert("RGB")`. -/
def PILImage.convertRGB (im : PILImage) : PILImage :=
  { im with mode := "RGB" }

/-- `Image.convert("L")`. -/
def PILImage.convertL (im : PILImage) : PILImage :=
  { im with mode := "L" }

/-- Tensors are flattened lists of rationals. -/
abbrev Tensor : Type := List ℚ

/-- Output of `HfTextClassificationProcessor.classification`. -/
structure TextOut where
  input_ids : List Nat
  attention_mask : List Nat
  deriving DecidableEq, Repr

/-- Python `a + b` on sequence values, where tuples and lists are distinct
types: tuple + tuple and list + list concatenate, tuple + list raises
`TypeError` (as in CPython). -/
inductive PySeq where
  | tup (l : List Int)
  | lst (l : List Int)
  deriving DecidableEq, Repr

/-- Python sequence addition: concatenation on same-kind sequences,
`TypeError` on a tuple/list mix. -/
def PySeq.add : PySeq → PySeq → Except PyErr PySeq
  | .tup a, .tup b => .ok (.tup (a ++ b))
  | .lst a, .lst b => .ok (.lst (a ++ b))
  | _, _ => .error .typeError

/-- Python attribute access on an optionally-present attribute: missing
attributes raise `AttributeError`. -/
def getAttr {α : Type} (attr : Option α) (name : String) : Except PyErr α :=
  match attr with
  | some v => .ok v
  | none => .error (.attributeError name)

/-- Attribute state of a `ControlNetXLProcessor` instance
(`processing_controlnet_xl.py`).  Fields are `Option`s: `none` means the
attribute was never assigned, so reading it raises `AttributeError`.
The function-valued fields stand for the external torchvision /
diffusers / tokenizer objects the attributes hold. -/
structure ControlNetXLProcessorState where
  text_processor1 : Option (Option String → TextOut)
  text_processor2 : Option (Option String → TextOut)
  vision_processor : Option (PILImage → Tensor)
  condition_vision_processor : Option (PILImage → Tensor)
  vae_image_processor : Option (PILImage → Tensor)
  vae_mask_image_processor : Option (PILImage → Tensor)
  vae_condition_image_processor : Option (PILImage → Tensor)
  vision_resize : Option (PILImage → PILImage)
  center_crop : Option Bool
  vision_crop : Option (PILImage → PILImage)
  vision_flip : Option (Option (PILImage → PILImage))
  image_size : Option Nat

/-- `ControlNetXLProcessor.__init__` (`processing_controlnet_xl.py` lines
25-96): assigns `text_processor1`, `text_processor2`, `vision_processor`,
`condition_vision_processor`, `vae_image_processor`,
`vae_mask_image_processor` and `vae_condition_image_processor`, and
nothing else.  In particular `vision_resize`, `center_crop`,
`vision_crop`, `vision_flip` and `image_size` are never assigned. -/
def controlNetXLProcessorInit
    (tp1 tp2 : Option String → TextOut)
    (vp cvp vip vmip vcip : PILImage → Tensor) :
    ControlNetXLProcessorState where
  text_processor1 := some tp1
  text_processor2 := some tp2
  vision_processor := some vp
  condition_vision_processor := some cvp
  vae_image_processor := some vip
  vae_mask_image_processor := some vmip
  vae_condition_image_processor := some vcip
  vision_resize := none
  center_crop := none
  vision_crop := none
  vision_flip := none
  image_size := none

/-- Result batch of `ControlNetXLProcessor.text2image`
(a `GenericOutputs`). -/
structure Text2ImageOut where
  pixel_values : Tensor
  condition_pixel_values : Tensor
  input_ids : List Nat
  attention_mask : List Nat
  input2_ids : List Nat
  attention2_mask : List Nat
  add_time_ids : PySeq

/-- `ControlNetXLProcessor.text2image` (`processing_controlnet_xl.py`
lines 98-152), for an already-opened image (the `str` branch only calls
`Image.open` first).  Follows the source line by line; every `self.x`
read goes through `getAttr`. -/
def text2image (self : ControlNetXLProcessorState)
    (image condition_image : PILImage) (prompt : String)
    (prompt2 : Option String) : Except PyErr Text2ImageOut := do
  let image := image.convertRGB
  let condition_image := condition_image.convertRGB
  -- PIL `image.size` is `(width, height)`
  let original_size : List Int := [(image.width : Int), (image.height : Int)]
  let visionResize ← getAttr self.vision_resize "vision_resize"
  let image := visionResize image
  let centerCrop ← getAttr self.center_crop "center_crop"
  let (image, y1, x1) ←
    if centerCrop then do
      let imageSize ← getAttr self.image_size "image_size"
      let y1 : Int := max 0 ((image.height - imageSize : Int) / 2)
      let x1 : Int := max 0 ((image.width - imageSize : Int) / 2)
      let visionCrop ← getAttr self.vision_crop "vision_crop"
      pure (visionCrop image, y1, x1)
    else do
      -- `self.vision_crop.get_params(...)`, then `crop(image, y1, x1, h, w)`
      let visionCrop ← getAttr self.vision_crop "vision_crop"
      let imageSize ← getAttr self.image_size "image_size"
      pure (visionCrop image, (0 : Int), (imageSize : Int))
  let visionFlip ← getAttr self.vision_flip "vision_flip"
  let (image, x1) :=
    match visionFlip with
    | some flip => (flip image, (image.width : Int) - x1)
    | none => (image, x1)
  let crop_top_left : List Int := [y1, x1]
  let visionProcessor ← getAttr self.vision_processor "vision_processor"
  let pixel_values := visionProcessor image
  let imageSize ← getAttr self.image_size "image_size"
  -- `original_size + crop_top_left + [self.image_size, self.image_size]`:
  -- tuple + tuple + list in the source
  let add_time_ids ← (PySeq.tup (original_size ++ crop_top_left)).add
    (PySeq.lst [(imageSize : Int), (imageSize : Int)])
  let conditionProcessor ←
    getAttr self.condition_vision_processor "condition_vision_processor"
  let condition_pixel_values := conditionProcessor condition_image
  -- `prompt2 = prompt2 or prompt` (Python falsy `None` and `""`)
  let prompt2 :=
    match prompt2 with
    | some s => if s = "" then prompt else s
    | none => prompt
  let tp1 ← getAttr self.text_processor1 "text_processor1"
  let prompt_outputs := tp1 (some prompt)
  let tp2 ← getAttr self.text_processor2 "text_processor2"
  let prompt2_outputs := tp2 (some prompt2)
  .ok {
    pixel_values := pixel_values
    condition_pixel_values := condition_pixel_values
    input_ids := prompt_outputs.input_ids
    attention_mask := prompt_outputs.attention_mask
    input2_ids := prompt2_outputs.input_ids
    attention2_mask := prompt2_outputs.attention_mask
    add_time_ids := add_time_ids
  }

/-- Result batch of `ControlNetXLProcessor.text2image_inputs`. -/
structure TextInputsOut where
  condition_pixel_values : Tensor
  input_ids : List Nat
  attention_mask : List Nat
  input2_ids : List Nat
  attention2_mask : List Nat
  negative_input_ids : List Nat
  negative_attention_mask : List Nat
  negative_input2_ids : List Nat
  negative_attention2_mask : List Nat

/-- `ControlNetXLProcessor.text2image_inputs` (`processing_controlnet_xl.py`
lines 154-194), for an already-opened condition image.  `prompt2`,
`negative_prompt` and `negative_prompt2` keep their `Optional[str]` typing
and are handed to the tokenizer as they are (the source applies no `or`
defaulting here). -/
def text2image_inputs (self : ControlNetXLProcessorState)
    (condition_image : PILImage) (prompt : String)
    (prompt2 negative_prompt negative_prompt2 : Option String) :
    Except PyErr TextInputsOut := do
  let condition_image := condition_image.convertRGB
  let vcip ←
    getAttr self.vae_condition_image_processor "vae_condition_image_processor"
  -- `self.vae_condition_image_processor.preprocess(condition_image)[0]`
  let condition_pixel_values := vcip condition_image
  let tp1 ← getAttr self.text_processor1 "text_processor1"
  let prompt_outputs := tp1 (some prompt)
  let tp2 ← getAttr self.text_processor2 "text_processor2"
  let prompt2_outputs := tp2 prompt2
  let negative_prompt_outputs := tp1 negative_prompt
  let negative_prompt2_outputs := tp2 negative_prompt2
  .ok {
    condition_pixel_values := condition_pixel_values
    input_ids := prompt_outputs.input_ids
    attention_mask := prompt_outputs.attention_mask
    input2_ids := prompt2_outputs.input_ids
    attention2_mask := prompt2_outputs.attention_mask
    negative_input_ids := negative_prompt_outputs.input_ids
    negative_attention_mask := negative_prompt_outputs.attention_mask
    negative_input2_ids := negative_prompt2_outputs.input_ids
    negative_attention2_mask := negative_prompt2_outputs.attention_mask
  }

/-- Result batch of `ControlNetXLProcessor.inpainting_inputs`:
`pixel_values`, `pixel_masks`, plus everything from `text2image_inputs`
(spliced in via `**text_inputs`). -/
structure InpaintingOut where
  pixel_values : Tensor
  pixel_masks : Tensor
  condition_pixel_values : Tensor
  input_ids : List Nat
  attention_mask : List Nat
  input2_ids : List Nat
  attention2_mask : List Nat
  negative_input_ids : List Nat
  negative_attention_mask : List Nat
  negative_input2_ids : List Nat
  negative_attention2_mask : List Nat

/-- `ControlNetXLProcessor.inpainting_inputs` (`processing_controlnet_xl.py`
lines 225-260), for already-opened images: converts the image to RGB and
the mask to `"L"`, preprocesses both with the VAE processors, rescales the
mask tensor by `(m + 1) / 2`, and merges in `text2image_inputs`. -/
def inpainting_inputs (self : ControlNetXLProcessorState)
    (image mask_image condition_image : PILImage) (prompt : String)
    (prompt2 negative_prompt negative_prompt2 : Option String) :
    Except PyErr InpaintingOut := do
  let image := image.convertRGB
  let mask_image := mask_image.convertL
  let vip ← getAttr self.vae_image_processor "vae_image_processor"
  -- `self.vae_image_processor.preprocess(image)[0]`
  let pixel_values := vip image
  let vmip ← getAttr self.vae_mask_image_processor "vae_mask_image_processor"
  -- `self.vae_mask_image_processor.preprocess(mask_image)[0]`
  let pixel_masks := vmip mask_image
  -- `pixel_masks = (pixel_masks + 1) / 2`
  let pixel_masks : Tensor := pixel_masks.map (fun x => (x + 1) / 2)
  let text_inputs ← text2image_inputs self condition_image prompt prompt2
    negative_prompt negative_prompt2
  .ok {
    pixel_values := pixel_values
    pixel_masks := pixel_masks
    condition_pixel_values := text_inputs.condition_pixel_values
    input_ids := text_inputs.input_ids
    attention_mask := text_inputs.attention_mask
    input2_ids := text_inputs.input2_ids
    attention2_mask := text_inputs.attention2_mask
    negative_input_ids := text_inputs.negative_input_ids
    negative_attention_mask := text_inputs.negative_attention_mask
    negative_input2_ids := text_inputs.negative_input2_ids
    negative_attention2_mask := text_inputs.negative_attention2_mask
  }

/-! ### State-dict key renaming (`modeling_controlnet.py`) -/

/-- `startsWithLit k lit` models `re.match("^lit.*", key)` for a literal
`lit` (all patterns in `prefix_keys_in_state_dict` have this shape). -/
def startsWithLit (k lit : String) : Bool := lit.data.isPrefixOf k.data

/-- `ControlNetForText2ImageGeneration.prefix_keys_in_state_dict`
(`modeling_controlnet.py` lines 31-47) in source (insertion) order; each
regex `^lit.*` is stored as its literal `lit`. -/
def controlNetPrefixKeys : List (String × String) :=
  [("conv_in", "unet."), ("conv_norm_out", "unet."), ("conv_out", "unet."),
   ("time_embedding", "unet."), ("up_blocks", "unet."),
   ("mid_block", "unet."), ("down_blocks", "unet."),
   ("text_model", "text."),
   ("encoder", "vae."), ("decoder", "vae."),
   ("post_quant_conv", "vae."), ("quant_conv", "vae.")]

/-- `ControlNetForText2ImageGeneration.replace_keys_in_state_dict`
(`modeling_controlnet.py` lines 49-54); each regex `\.x\.` is stored as
its literal `.x.`. -/
def controlNetReplaceKeys : List (String × String) :=
  [(".query.", ".to_q."), (".key.", ".to_k."), (".value.", ".to_v."),
   (".proj_attn.", ".to_out.0.")]

/-- Modelled from the spec: "weight-key renaming via regex" — how the
state-dict loader (in `unitorch/models/__init__.py`, not among the
analysed sources) applies `prefix_keys_in_state_dict`: a key matching one
of the patterns receives the corresponding prefix, a key matching none is
left unchanged. -/
def applyPrefixRules (rules : List (String × String)) (k : String) : String :=
  match rules.find? (fun r => startsWithLit k r.1) with
  | some r => r.2 ++ k
  | none => k

/-- Left-to-right, non-overlapping substitution of every occurrence of
`pat` by `rep` in a character list, with explicit fuel (which
`substString` supplies as the string length, enough since each step
consumes at least one character). -/
def substListAux (pat rep : List Char) : Nat → List Char → List Char
  | 0, s => s
  | _ + 1, [] => []
  | fuel + 1, c :: rest =>
    if pat.isPrefixOf (c :: rest) then
      rep ++ substListAux pat rep fuel ((c :: rest).drop pat.length)
    else c :: substListAux pat rep fuel rest

/-- Substitution of every occurrence of `pat` (nonempty for all patterns
of `replace_keys_in_state_dict`) by `rep` in `s`, as `re.sub` does. -/
def substString (s pat rep : String) : String :=
  if pat = "" then s
  else ⟨substListAux pat.data rep.data s.data.length s.data⟩

/-- Modelled from the spec: how the state-dict loader applies
`replace_keys_in_state_dict`: each pattern is substituted (all
occurrences) in order. -/
def applyReplaceRules (rules : List (String × String)) (k : String) : String :=
  rules.foldl (fun s r => substString s r.1 r.2) k

/-- Full key renaming of `ControlNetForText2ImageGeneration`: prefixing
followed by substitution in the resulting keys. -/
def renameStateDictKey (k : String) : String :=
  applyReplaceRules controlNetReplaceKeys
    (applyPrefixRules controlNetPrefixKeys k)

/-! ### Configuration resolution (`from_core_configure`) -/

/-- Error raised by `pop_value` when every candidate is `None`. -/
inductive CfgErr where
  | popEmpty
  deriving DecidableEq, Repr

/-- Modelled from the spec: "merges user overrides with registry
defaults" — `unitorch.utils.pop_value` (not among the analysed sources)
returns the first non-`None` candidate and, with its default
`check_none`, raises when all candidates are `None`. -/
def pop_value {α : Type} (a b : Option α) : Except CfgErr α :=
  match a with
  | some v => .ok v
  | none =>
    match b with
    | some v => .ok v
    | none => .error .popEmpty

/-- Options read by `T5Processor.from_core_configure` from the
`core/process/t5` section; a field is `none` when the option is not set
in the configuration (`config.getoption` then yields its default). -/
structure T5ProcessorConfig where
  pretrained_name : Option String
  vocab_path : Option String

/-- `T5Processor.from_core_configure` (`cli/models/t5/processing.py`
lines 49-73), path-resolution part: the returned `vocab_path`.
`reg name field` models `nested_dict_value(pretrained_t5_infos, name,
field)` and `cachedPath` models `cached_path`, both repository helpers
outside the analysed sources, modelled from the spec. -/
def T5Processor_from_core_configure (reg : String → String → Option String)
    (cachedPath : String → String) (cfg : T5ProcessorConfig) :
    Except CfgErr String := do
  let pretrained_name := cfg.pretrained_name.getD "default-t5"
  let vocab_path ← pop_value cfg.vocab_path (reg pretrained_name "vocab")
  .ok (cachedPath vocab_path)

/-- Options read by `SiglipForPretrain.from_core_configure` from the
`core/model/pretrain/siglip` section (path-resolution part). -/
structure SiglipPretrainConfig where
  pretrained_name : Option String
  config_path : Option String

/-- `SiglipForPretrain.from_core_configure`
(`cli/models/siglip/modeling.py` lines 53-95), path-resolution part: the
`config_path` handed to the constructor. -/
def SiglipForPretrain_resolve_config_path
    (reg : String → String → Option String) (cachedPath : String → String)
    (cfg : SiglipPretrainConfig) : Except CfgErr String := do
  let pretrained_name := cfg.pretrained_name.getD "siglip-base-patch16-224"
  let config_path ← pop_value cfg.config_path (reg pretrained_name "config")
  .ok (cachedPath config_path)

/-- A Python value that is either a single string or a list of strings
(the two shapes `controlnet_configs_path` can take). -/
inductive StrOrList where
  | str (s : String)
  | list (l : List String)
  deriving DecidableEq, Repr

/-- `MultiControlNetXLForImageInpaintingPipeline.from_core_configure`
(`cli/pipelines/multicontrolnet_xl/inpainting.py` lines 118-126):
resolution of `controlnet_configs_path`.  A single string is wrapped in a
one-element list as it is; a list has `cached_path` applied to every
element. -/
def mcxl_resolveControlnetConfigs (cachedPath : String → String)
    (cfgVal regVal : Option StrOrList) : Except CfgErr (List String) := do
  let v ← pop_value cfgVal regVal
  match v with
  | .str s => pure [s]
  | .list l => pure (l.map cachedPath)

/-- The registry entry (`pretrained_diffusers_infos[pretrained_name]`)
for a multi-controlnet SDXL model: weight locations of each sub-module.
The registry itself lives outside the analysed sources; modelled from the
spec's description of named pretrained identifiers mapping to sets of
config/weight paths. -/
structure DiffusersPretrainInfos where
  unetWeight : String
  textWeight : String
  text2Weight : String
  vaeWeight : String
  controlnetWeights : List String

/-- A loaded-and-remapped state dict, reduced to what identifies it: the
weight location and the prefix added to every key. -/
structure WeightSpec where
  path : String
  keyPfx : String
  deriving DecidableEq, Repr

/-- Modelled from the spec: `load_weight(w, prefix_keys={"": p})` (helper
outside the analysed sources) loads the state dict at `w` and prefixes
every key with `p` (the empty pattern matches every key). -/
def load_weight (path p : String) : WeightSpec := ⟨path, p⟩

/-- `MultiControlNetXLForImageInpaintingPipeline.from_core_configure`
(`cli/pipelines/multicontrolnet_xl/inpainting.py` lines 175-201): the
`state_dict` assembly.  `state_dict` stays `None` unless no
`pretrained_weight_path` is configured and registry info exists. -/
def mcxl_assembleStateDict (weight_path : Option String)
    (infos : Option DiffusersPretrainInfos) : Option (List WeightSpec) :=
  match weight_path, infos with
  | none, some pi =>
    some ([load_weight pi.unetWeight "unet.",
           load_weight pi.textWeight "text.",
           load_weight pi.text2Weight "text2.",
           load_weight pi.vaeWeight "vae."]
      ++ pi.controlnetWeights.enum.map
          (fun iw => load_weight iw.2 ("controlnet.nets." ++ toString iw.1 ++ ".")))
  | _, _ => none

/-- Constructor arguments of `SiglipForTextClassification` that
`from_core_configure` fills from options (besides `config_path`). -/
structure SiglipTextClsArgs where
  num_classes : Int
  freeze_base_model : Bool
  gradient_checkpointing : Bool
  deriving DecidableEq, Repr

/-- Option reads of `SiglipForTextClassification.from_core_configure`
(`cli/models/siglip/modeling.py` lines 277-287) on the
`core/model/classification/siglip/text` section: each option is fetched
by name with `config.getoption(name, default)` (configured value when
set, else the default).  Note the source reads the option named
`freeze_base_Truemodel` (line 279), not `freeze_base_model`. -/
def siglipTextCls_ctor_args (cfgInt : String → Option Int)
    (cfgBool : String → Option Bool) : SiglipTextClsArgs where
  num_classes := (cfgInt "num_classes").getD 1
  freeze_base_model := (cfgBool "freeze_base_Truemodel").getD true
  gradient_checkpointing := (cfgBool "gradient_checkpointing").getD false

/-! ### Scheduler resolution and `generate` (`modeling_controlnet*.py`) -/

/-- The `diffusers.schedulers` module (external library, modelled
abstractly): which attribute names it has, and which of them resolve to
subclasses of `SchedulerMixin`. -/
structure SchedulerModule where
  hasAttr : String → Bool
  isSchedulerMixinSubclass : String → Bool

/-- A failed Python `assert`. -/
inductive AssertErr where
  | assertionError
  deriving DecidableEq, Repr

/-- Scheduler resolution of every ControlNet / ControlNetXL generation
constructor (`modeling_controlnet.py` lines 94-99, identical in
`modeling_controlnet_xl.py` lines 97-102 and the remaining four
constructors): take `_class_name` from the scheduler config (default
`DDPMScheduler`), `assert hasattr(schedulers, name)`, resolve it,
`assert issubclass(cls, SchedulerMixin)`.  A raised `AssertionError`
propagates out of `__init__`, so no model instance is constructed. -/
def resolveSchedulerClass (env : SchedulerModule)
    (classNameField : Option String) : Except AssertErr String :=
  let scheduler_class_name := classNameField.getD "DDPMScheduler"
  if env.hasAttr scheduler_class_name then
    if env.isSchedulerMixinSubclass scheduler_class_name then
      .ok scheduler_class_name
    else .error .assertionError
  else .error .assertionError

/-- State of a `torch.Generator`. -/
structure GenState where
  state : Int
  deriving DecidableEq, Repr

/-- `torch.Generator(device=...)`: a fresh generator whose initial state
is whatever the ambient torch RNG environment provides. -/
def freshGenerator (ambient : Int) : GenState := ⟨ambient⟩

/-- `Generator.manual_seed(seed)`: deterministically overwrites the whole
generator state from the seed, discarding the previous state. -/
def manualSeed (seed : Int) (_g : GenState) : GenState := ⟨seed⟩

/-- The `seed: Optional[int] = 1123` constructor argument of the six
ControlNet generation classes, stored as `self.seed`; `none` models an
omitted argument. -/
def controlNetInitSeed (seedArg : Option Int) : Int := seedArg.getD 1123

/-- Output of a CLIP text encoder call: the first element of the output
(pooled / projected output, `outputs[0]`) and the `hidden_states` list
(populated when called with `output_hidden_states=True`). -/
structure EncOut (T : Type) where
  first : T
  hidden_states : List T

/-- A text encoder module (external `transformers` model): a function of
input ids and optional attention mask. -/
abbrev TextEncoder (T : Type) := T → Option T → EncOut T

/-- Python `l[-2]`: the penultimate element, `IndexError` when the list
is shorter than 2. -/
def pyIndexNeg2 {α : Type} (l : List α) : Except PyErr α :=
  if h : 2 ≤ l.length then .ok (l.get ⟨l.length - 2, by omega⟩)
  else .error .typeError

/-- The penultimate element of a list of length at least 2. -/
def penultimate {α : Type} (l : List α) (h : 2 ≤ l.length) : α :=
  l.get ⟨l.length - 2, by omega⟩

/-- Modules of `ControlNetXLForText2ImageGeneration` used by `generate`;
`T` is the tensor type, `C` the type of opaque module handles. -/
structure ControlNetXLModel (T C : Type) where
  text : TextEncoder T
  text2 : TextEncoder T
  vae : C
  unet : C
  controlnet : C
  scheduler : C
  seed : Int

/-- Modules of `ControlNetForText2ImageGeneration` used by `generate`. -/
structure ControlNetT2IModel (T C : Type) where
  text : TextEncoder T
  vae : C
  unet : C
  controlnet : C
  scheduler : C
  seed : Int

/-- A constructed `StableDiffusionXLControlNetPipeline`: the components
it was built from (both tokenizers are passed as `None` in the source). -/
structure SDXLPipeline (T C : Type) where
  vae : C
  text_encoder : TextEncoder T
  text_encoder_2 : TextEncoder T
  unet : C
  controlnet : C
  scheduler : C

/-- A constructed `StableDiffusionControlNetPipeline` (tokenizer,
safety checker and feature extractor are passed as `None`). -/
structure SDPipeline (T C : Type) where
  vae : C
  text_encoder : TextEncoder T
  unet : C
  controlnet : C
  scheduler : C

/-- Arguments of the SDXL controlnet pipeline `__call__` in `generate`. -/
structure SDXLCallArgs (T C : Type) where
  pipe : SDXLPipeline T C
  image : T
  prompt_embeds : T
  negative_prompt_embeds : T
  pooled_prompt_embeds : T
  negative_pooled_prompt_embeds : T
  generator : GenState
  height : Nat
  width : Nat
  guidance_scale : ℚ

/-- Arguments of the SD controlnet pipeline `__call__` in `generate`. -/
structure SDCallArgs (T C : Type) where
  pipe : SDPipeline T C
  image : T
  prompt_embeds : T
  negative_prompt_embeds : T
  generator : GenState
  height : Nat
  width : Nat
  guidance_scale : ℚ

/-- Modelled from the spec: the external diffusers pipeline calls and
torch tensor operations, as pure functions of their arguments —
"building library-native pipeline objects which immediately hand off all
real computation to external packages". -/
structure TorchDiffusersOps (T C : Type) where
  concatLast : T → T → T
  fromNumpy : T → T
  sdxlControlNetPipeImages : SDXLCallArgs T C → T
  sdControlNetPipeImages : SDCallArgs T C → T

/-- `ControlNetXLForText2ImageGeneration.generate`
(`modeling_controlnet_xl.py` lines 122-192): penultimate hidden states of
both encoders, concatenated along the last dimension; pooled embeddings
from the second encoder (`outputs[0]`); a fresh manually-seeded
generator; everything else handed to the library pipeline.  `ambientRng`
is the state a fresh `torch.Generator(device=...)` starts from. -/
def controlNetXL_generate {T C : Type} (ops : TorchDiffusersOps T C)
    (m : ControlNetXLModel T C)
    (input_ids input2_ids negative_input_ids negative_input2_ids
      condition_pixel_values : T)
    (attention_mask attention2_mask negative_attention_mask
      negative_attention2_mask : Option T)
    (height width : Nat) (guidance_scale : ℚ) (ambientRng : Int) :
    Except PyErr T := do
  let prompt_outputs := m.text input_ids attention_mask
  let prompt_embeds ← pyIndexNeg2 prompt_outputs.hidden_states
  let negative_prompt_outputs :=
    m.text negative_input_ids negative_attention_mask
  let negative_prompt_embeds ←
    pyIndexNeg2 negative_prompt_outputs.hidden_states
  let prompt2_outputs := m.text2 input2_ids attention2_mask
  let prompt2_embeds ← pyIndexNeg2 prompt2_outputs.hidden_states
  let negative_prompt2_outputs :=
    m.text2 negative_input2_ids negative_attention2_mask
  let negative_prompt2_embeds ←
    pyIndexNeg2 negative_prompt2_outputs.hidden_states
  let pipeline : SDXLPipeline T C :=
    ⟨m.vae, m.text, m.text2, m.unet, m.controlnet, m.scheduler⟩
  let prompt_embeds := ops.concatLast prompt_embeds prompt2_embeds
  let negative_prompt_embeds :=
    ops.concatLast negative_prompt_embeds negative_prompt2_embeds
  let pooled_prompt_embeds := prompt2_outputs.first
  let negative_pooled_prompt_embeds := negative_prompt2_outputs.first
  let images := ops.sdxlControlNetPipeImages {
    pipe := pipeline
    image := condition_pixel_values
    prompt_embeds := prompt_embeds
    negative_prompt_embeds := negative_prompt_embeds
    pooled_prompt_embeds := pooled_prompt_embeds
    negative_pooled_prompt_embeds := negative_pooled_prompt_embeds
    generator := manualSeed m.seed (freshGenerator ambientRng)
    height := height
    width := width
    guidance_scale := guidance_scale }
  .ok (ops.fromNumpy images)

/-- `ControlNetForText2ImageGeneration.generate`
(`modeling_controlnet.py` lines 119-161): prompt embeddings are
`self.text(...)[0]`, the pipeline is built from the model's own modules
and receives a fresh manually-seeded generator. -/
def controlNet_generate {T C : Type} (ops : TorchDiffusersOps T C)
    (m : ControlNetT2IModel T C)
    (input_ids negative_input_ids condition_pixel_values : T)
    (attention_mask negative_attention_mask : Option T)
    (height width : Nat) (guidance_scale : ℚ) (ambientRng : Int) : T :=
  let prompt_embeds := (m.text input_ids attention_mask).first
  let negative_prompt_embeds :=
    (m.text negative_input_ids negative_attention_mask).first
  let images := ops.sdControlNetPipeImages {
    pipe := ⟨m.vae, m.text, m.unet, m.controlnet, m.scheduler⟩
    image := condition_pixel_values
    prompt_embeds := prompt_embeds
    negative_prompt_embeds := negative_prompt_embeds
    generator := manualSeed m.seed (freshGenerator ambientRng)
    height := height
    width := width
    guidance_scale := guidance_scale }
  ops.fromNumpy images

/-- A scheduler handle: its class name, its config, and its currently-set
timestep count.  `Schedulers.get(name).from_config(cfg)` builds a handle
of class `name` carrying config `cfg` (external diffusers behaviour,
modelled from the spec). -/
structure SchedulerHandle where
  className : String
  config : List (String × String)
  timesteps : Nat
  deriving DecidableEq, Repr

/-- `Schedulers.get(name).from_config(cfg)`. -/
def schedulerFromConfig (name : String) (cfg : List (String × String)) :
    SchedulerHandle :=
  ⟨name, cfg, 0⟩

/-- Mutable state of `MultiControlNetXLForImageInpaintingPipeline`
touched by `__call__`: the opaque module weights, the scheduler, the
freeu parameters and the seed. -/
structure MCXLPipeState (C : Type) where
  modules : C
  scheduler : SchedulerHandle
  freeu : Option (ℚ × ℚ × ℚ × ℚ)
  seed : Int

/-- Keyword arguments of
`MultiControlNetXLForImageInpaintingPipeline.__call__`
(`cli/pipelines/multicontrolnet_xl/inpainting.py` lines 228-246). -/
structure MCXLCallArgs where
  text : String
  image : PILImage
  mask_image : PILImage
  condition_images : List PILImage
  neg_text : String
  guidance_scale : ℚ
  controlnet_conditioning_scale : ℚ
  num_timesteps : Nat
  seed : Int
  scheduler : Option String
  freeu_params : ℚ × ℚ × ℚ × ℚ

/-- Modelled from the spec: the external pieces `__call__` delegates to —
the multi-controlnet processor's `inpainting_inputs` and the base class
`generate` (both outside the analysed sources), as pure functions. -/
structure MCXLOps (T C : Type) where
  processorInputs : PILImage → PILImage → List PILImage → String → String → T
  generateImages :
    C → SchedulerHandle → Option (ℚ × ℚ × ℚ × ℚ) → Int → T → ℚ → ℚ → T
  numpyToPil : T → PILImage

/-- `MultiControlNetXLForImageInpaintingPipeline.__call__`
(`cli/pipelines/multicontrolnet_xl/inpainting.py` lines 226-273):
preprocess, optionally swap the scheduler (rebuilt from the current
scheduler's config), set its timesteps, enable freeu, set `self.seed`
from the `seed` argument, then `self.generate(...)`.  Returns the image
and the mutated pipeline state. -/
def mcxl_call {T C : Type} (ops : MCXLOps T C) (st : MCXLPipeState C)
    (args : MCXLCallArgs) : PILImage × MCXLPipeState C :=
  let inputs := ops.processorInputs args.image args.mask_image
    args.condition_images args.text args.neg_text
  let sched :=
    match args.scheduler with
    | some name => schedulerFromConfig name st.scheduler.config
    | none => st.scheduler
  let sched := { sched with timesteps := args.num_timesteps }
  let st :=
    { st with
      scheduler := sched
      freeu := some args.freeu_params
      seed := args.seed }
  let out := ops.generateImages st.modules st.scheduler st.freeu st.seed
    inputs args.guidance_scale args.controlnet_conditioning_scale
  (ops.numpyToPil out, st)

/-- A concrete tokenizer stand-in used when evaluating the development on
concrete inputs. -/
def constTextOut : Option String → TextOut := fun _ => ⟨[1, 2], [1, 1]⟩

/-- A concrete image-processor stand-in used when evaluating the
development on concrete inputs. -/
def constTensor : PILImage → Tensor := fun _ => [0]

/-- A concrete mask-processor stand-in whose output lies in `[-1, 1]`. -/
def maskTensorExample : PILImage → Tensor := fun _ => [-1, 0, 1]

/-- Concrete external ops (over `Int` tensors and `Int` module handles)
used when evaluating the development on concrete inputs. -/
def opsExample : TorchDiffusersOps Int Int where
  concatLast := fun a b => a + b
  fromNumpy := fun a => 2 * a
  sdxlControlNetPipeImages := fun args =>
    args.prompt_embeds + args.image + args.generator.state
  sdControlNetPipeImages := fun args =>
    args.prompt_embeds + args.image + args.generator.state

/-- A concrete text-encoder stand-in with two hidden states. -/
def encExample1 : TextEncoder Int := fun i _ => ⟨i, [i + 10, i + 20]⟩

/-- A second concrete text-encoder stand-in with two hidden states. -/
def encExample2 : TextEncoder Int := fun i _ => ⟨i + 1, [i + 30, i + 40]⟩

/-- A concrete SDXL controlnet model stand-in. -/
def mExample : ControlNetXLModel Int Int :=
  ⟨encExample1, encExample2, 0, 1, 2, 3, 1123⟩

/-! ## Theorems -/

/-- C1: for every image, condition image and prompt, the claim expects
`ControlNetXLProcessor.text2image` to return a `GenericOutputs` batch and
never raise.  In fact `__init__` never assigns `vision_resize` (it builds
`vision_processor` instead), so the first `self.vision_resize` read in
`text2image` raises `AttributeError` on every input: the method always
fails, for every processor construction and every well-formed input. -/
theorem text2image_always_raises_attributeError
    (tp1 tp2 : Option String → TextOut)
    (vp cvp vip vmip vcip : PILImage → Tensor)
    (image condition_image : PILImage) (prompt : String)
    (prompt2 : Option String) :
    text2image (controlNetXLProcessorInit tp1 tp2 vp cvp vip vmip vcip)
      image condition_image prompt prompt2
      = .error (.attributeError "vision_resize") := by
  rfl

/-- C6: for every mask image, `inpainting_inputs` converts the mask to
mode `"L"`, preprocesses it with the VAE mask image processor and rescales
the result by `(m + 1) / 2`; whenever the preprocessor output lies in
`[-1, 1]`, every element of the returned `pixel_masks` lies in `[0, 1]`;
and the returned batch carries the preprocessed image `pixel_values`
together with all text fields of `text2image_inputs`. -/
theorem inpainting_inputs_mask_rescaled_in_unit_interval
    (tp1 tp2 : Option String → TextOut)
    (vp cvp vip vmip vcip : PILImage → Tensor)
    (image mask_image condition_image : PILImage) (prompt : String)
    (prompt2 negative_prompt negative_prompt2 : Option String)
    (hm : ∀ x ∈ vmip (mask_image.convertL), -1 ≤ x ∧ x ≤ 1) :
    ∃ out t,
      inpainting_inputs (controlNetXLProcessorInit tp1 tp2 vp cvp vip vmip vcip)
        image mask_image condition_image prompt prompt2
        negative_prompt negative_prompt2 = .ok out
      ∧ text2image_inputs (controlNetXLProcessorInit tp1 tp2 vp cvp vip vmip vcip)
          condition_image prompt prompt2 negative_prompt negative_prompt2 = .ok t
      ∧ out.pixel_masks
          = (vmip (mask_image.convertL)).map (fun x => (x + 1) / 2)
      ∧ (∀ y ∈ out.pixel_masks, 0 ≤ y ∧ y ≤ 1)
      ∧ out.pixel_values = vip (image.convertRGB)
      ∧ out.condition_pixel_values = t.condition_pixel_values
      ∧ out.input_ids = t.input_ids
      ∧ out.attention_mask = t.attention_mask
      ∧ out.input2_ids = t.input2_ids
      ∧ out.attention2_mask = t.attention2_mask
      ∧ out.negative_input_ids = t.negative_input_ids
      ∧ out.negative_attention_mask = t.negative_attention_mask
      ∧ out.negative_input2_ids = t.negative_input2_ids
      ∧ out.negative_attention2_mask = t.negative_attention2_mask := by
  refine ⟨_, _, rfl, rfl, rfl, ?_, rfl, rfl, rfl, rfl, rfl, rfl, rfl, rfl, rfl, rfl⟩
  intro y hy
  simp only [inpainting_inputs, text2image_inputs, controlNetXLProcessorInit,
    getAttr, Except.bind, pure, List.mem_map] at hy
  obtain ⟨x, hx, rfl⟩ := hy
  obtain ⟨h1, h2⟩ := hm x hx
  constructor <;> [linarith; linarith]

/-- Witness for `inpainting_inputs_mask_rescaled_in_unit_interval` at a
concrete processor state and concrete 4×4 images. -/
theorem inpainting_inputs_mask_rescaled_witness :
    (∀ x ∈ maskTensorExample (PILImage.convertL ⟨4, 4, "RGB"⟩),
      -1 ≤ x ∧ x ≤ 1)
    ∧ ∃ out t,
      inpainting_inputs
        (controlNetXLProcessorInit constTextOut constTextOut constTensor
          constTensor constTensor maskTensorExample constTensor)
        ⟨4, 4, "RGB"⟩ ⟨4, 4, "RGB"⟩ ⟨4, 4, "RGB"⟩ "a cat" none (some "") none
        = .ok out
      ∧ text2image_inputs
          (controlNetXLProcessorInit constTextOut constTextOut constTensor
            constTensor constTensor maskTensorExample constTensor)
          ⟨4, 4, "RGB"⟩ "a cat" none (some "") none = .ok t
      ∧ out.pixel_masks
          = (maskTensorExample (PILImage.convertL ⟨4, 4, "RGB"⟩)).map
              (fun x => (x + 1) / 2)
      ∧ (∀ y ∈ out.pixel_masks, 0 ≤ y ∧ y ≤ 1)
      ∧ out.pixel_values = constTensor (PILImage.convertRGB ⟨4, 4, "RGB"⟩)
      ∧ out.condition_pixel_values = t.condition_pixel_values
      ∧ out.input_ids = t.input_ids
      ∧ out.attention_mask = t.attention_mask
      ∧ out.input2_ids = t.input2_ids
      ∧ out.attention2_mask = t.attention2_mask
      ∧ out.negative_input_ids = t.negative_input_ids
      ∧ out.negative_attention_mask = t.negative_attention_mask
      ∧ out.negative_input2_ids = t.negative_input2_ids
      ∧ out.negative_attention2_mask = t.negative_attention2_mask :=
  ⟨by decide,
    inpainting_inputs_mask_rescaled_in_unit_interval constTextOut constTextOut
      constTensor constTensor constTensor maskTensorExample constTensor
      ⟨4, 4, "RGB"⟩ ⟨4, 4, "RGB"⟩ ⟨4, 4, "RGB"⟩ "a cat" none (some "") none
      (by decide)⟩

/-- Two prefixes (as `isPrefixOf`) of the same list are comparable. -/
theorem isPrefixOf_total {a b k : List Char} (ha : a.isPrefixOf k = true)
    (hb : b.isPrefixOf k = true) :
    a.isPrefixOf b = true ∨ b.isPrefixOf a = true := by
  induction k generalizing a b with
  | nil =>
    cases a <;> cases b <;> simp_all [List.isPrefixOf]
  | cons x xs ih =>
    cases a with
    | nil => left; simp [List.isPrefixOf]
    | cons a0 as =>
      cases b with
      | nil => right; simp [List.isPrefixOf]
      | cons b0 bs =>
        simp only [List.isPrefixOf, Bool.and_eq_true, beq_iff_eq] at ha hb ⊢
        obtain ⟨rfl, ha'⟩ := ha
        obtain ⟨rfl, hb'⟩ := hb
        rcases ih ha' hb' with h | h
        · exact Or.inl ⟨rfl, h⟩
        · exact Or.inr ⟨rfl, h⟩

/-- If the pattern literals of a rule list are pairwise non-comparable
(no literal a prefix of another), then a key matching the literal of an
entry is renamed with exactly that entry's prefix. -/
theorem applyPrefixRules_eq_of_mem {rules : List (String × String)}
    (hp : rules.Pairwise fun r s =>
      r.1.data.isPrefixOf s.1.data = false
      ∧ s.1.data.isPrefixOf r.1.data = false)
    {lit p : String} {k : String} (hmem : (lit, p) ∈ rules)
    (hk : startsWithLit k lit = true) :
    applyPrefixRules rules k = p ++ k := by
  induction rules with
  | nil => cases hmem
  | cons hd tl ih =>
    rcases List.mem_cons.mp hmem with heq | hmem'
    · subst heq
      simp [applyPrefixRules, List.find?, hk]
    · have hrel := (List.pairwise_cons.mp hp).1 _ hmem'
      have hhd : startsWithLit k hd.1 = false := by
        by_contra hc
        rw [Bool.not_eq_false] at hc
        rw [startsWithLit] at hc hk
        rcases isPrefixOf_total hc hk with h | h
        · rw [hrel.1] at h; exact Bool.false_ne_true h
        · rw [hrel.2] at h; exact Bool.false_ne_true h
      have htl := ih (List.pairwise_cons.mp hp).2 hmem'
      simpa [applyPrefixRules, List.find?, hhd] using htl

/-- A key matching none of the pattern literals is left unchanged. -/
theorem applyPrefixRules_eq_of_no_match {rules : List (String × String)}
    {k : String} (h : ∀ r ∈ rules, startsWithLit k r.1 = false) :
    applyPrefixRules rules k = k := by
  have : rules.find? (fun r => startsWithLit k r.1) = none :=
    List.find?_eq_none.mpr (by simpa using h)
  simp [applyPrefixRules, this]

/-- C3: the renaming rules of `ControlNetForText2ImageGeneration` map keys
matching `^text_model.*` to prefix `text.`, keys matching `^encoder.*`,
`^decoder.*`, `^post_quant_conv.*` or `^quant_conv.*` to prefix `vae.`,
keys matching one of the seven UNet patterns to prefix `unet.`, leave
keys matching none of the patterns unprefixed, and then substitute
`.query.` ↦ `.to_q.`, `.key.` ↦ `.to_k.`, `.value.` ↦ `.to_v.` and
`.proj_attn.` ↦ `.to_out.0.` in the resulting keys. -/
theorem controlNet_state_dict_renaming :
    (∀ k : String, startsWithLit k "text_model" = true →
      renameStateDictKey k
        = applyReplaceRules controlNetReplaceKeys ("text." ++ k))
    ∧ (∀ k lit : String,
        lit ∈ ["encoder", "decoder", "post_quant_conv", "quant_conv"] →
        startsWithLit k lit = true →
        renameStateDictKey k
          = applyReplaceRules controlNetReplaceKeys ("vae." ++ k))
    ∧ (∀ k lit : String,
        lit ∈ ["conv_in", "conv_norm_out", "conv_out", "time_embedding",
               "up_blocks", "mid_block", "down_blocks"] →
        startsWithLit k lit = true →
        renameStateDictKey k
          = applyReplaceRules controlNetReplaceKeys ("unet." ++ k))
    ∧ (∀ k : String, (∀ r ∈ controlNetPrefixKeys, startsWithLit k r.1 = false) →
        renameStateDictKey k = applyReplaceRules controlNetReplaceKeys k)
    ∧ (∀ s : String, applyReplaceRules controlNetReplaceKeys s
        = substString (substString (substString (substString s
            ".query." ".to_q.") ".key." ".to_k.") ".value." ".to_v.")
            ".proj_attn." ".to_out.0.") := by
  have hp : controlNetPrefixKeys.Pairwise (fun r s =>
      r.1.data.isPrefixOf s.1.data = false
      ∧ s.1.data.isPrefixOf r.1.data = false) := by decide
  refine ⟨?_, ?_, ?_, ?_, fun s => rfl⟩
  · intro k hk
    rw [renameStateDictKey, applyPrefixRules_eq_of_mem hp
      (show ("text_model", "text.") ∈ controlNetPrefixKeys by decide) hk]
  · have hv : ∀ lit ∈ (["encoder", "decoder", "post_quant_conv",
        "quant_conv"] : List String), (lit, "vae.") ∈ controlNetPrefixKeys := by
      decide
    intro k lit hmem hk
    rw [renameStateDictKey, applyPrefixRules_eq_of_mem hp (hv lit hmem) hk]
  · have hu : ∀ lit ∈ (["conv_in", "conv_norm_out", "conv_out",
        "time_embedding", "up_blocks", "mid_block",
        "down_blocks"] : List String),
        (lit, "unet.") ∈ controlNetPrefixKeys := by
      decide
    intro k lit hmem hk
    rw [renameStateDictKey, applyPrefixRules_eq_of_mem hp (hu lit hmem) hk]
  · intro k hk
    rw [renameStateDictKey, applyPrefixRules_eq_of_no_match hk]

/-- Witness for `controlNet_state_dict_renaming` on concrete keys from
each group of patterns. -/
theorem controlNet_state_dict_renaming_witness :
    (startsWithLit "text_model.encoder.layers.0.self_attn.query.weight"
        "text_model" = true)
    ∧ renameStateDictKey "text_model.encoder.layers.0.self_attn.query.weight"
        = applyReplaceRules controlNetReplaceKeys
            ("text." ++ "text_model.encoder.layers.0.self_attn.query.weight")
    ∧ renameStateDictKey "text_model.encoder.layers.0.self_attn.query.weight"
        = "text.text_model.encoder.layers.0.self_attn.to_q.weight"
    ∧ renameStateDictKey "mid_block.attentions.0.proj_attn.weight"
        = applyReplaceRules controlNetReplaceKeys
            ("unet." ++ "mid_block.attentions.0.proj_attn.weight")
    ∧ renameStateDictKey "mid_block.attentions.0.proj_attn.weight"
        = "unet.mid_block.attentions.0.to_out.0.weight"
    ∧ renameStateDictKey "logit_scale"
        = applyReplaceRules controlNetReplaceKeys "logit_scale"
    ∧ renameStateDictKey "logit_scale" = "logit_scale" :=
  ⟨by decide,
   controlNet_state_dict_renaming.1 _ (by decide),
   by rfl,
   controlNet_state_dict_renaming.2.2.1 _ "mid_block" (by decide) (by decide),
   by rfl,
   controlNet_state_dict_renaming.2.2.2.1 _ (by decide),
   by rfl⟩

/-- C2: in `from_core_configure`, a path option explicitly set in the
configuration takes precedence over the registry default, and only when
it is unset is the path taken from the pretrained-infos registry under
the configured `pretrained_name`; in particular
`T5Processor.from_core_configure` uses the configured `vocab_path` when
present and otherwise the `vocab` entry of `pretrained_t5_infos` for the
configured `pretrained_name` (default `default-t5`), and
`SiglipForPretrain.from_core_configure` behaves the same for
`config_path` (default name `siglip-base-patch16-224`). -/
theorem from_core_configure_path_precedence :
    (∀ (reg : String → String → Option String) (cp : String → String)
        (cfg : T5ProcessorConfig) (p : String),
      cfg.vocab_path = some p →
      T5Processor_from_core_configure reg cp cfg = .ok (cp p))
    ∧ (∀ (reg : String → String → Option String) (cp : String → String)
        (cfg : T5ProcessorConfig) (v : String),
      cfg.vocab_path = none →
      reg (cfg.pretrained_name.getD "default-t5") "vocab" = some v →
      T5Processor_from_core_configure reg cp cfg = .ok (cp v))
    ∧ (∀ (reg : String → String → Option String) (cp : String → String)
        (cfg : SiglipPretrainConfig) (p : String),
      cfg.config_path = some p →
      SiglipForPretrain_resolve_config_path reg cp cfg = .ok (cp p))
    ∧ (∀ (reg : String → String → Option String) (cp : String → String)
        (cfg : SiglipPretrainConfig) (v : String),
      cfg.config_path = none →
      reg (cfg.pretrained_name.getD "siglip-base-patch16-224") "config"
        = some v →
      SiglipForPretrain_resolve_config_path reg cp cfg = .ok (cp v)) := by
  refine ⟨?_, ?_, ?_, ?_⟩
  · intro reg cp cfg p h
    simp only [T5Processor_from_core_configure, pop_value, h]
    rfl
  · intro reg cp cfg v h1 h2
    simp only [T5Processor_from_core_configure, pop_value, h1, h2]
    rfl
  · intro reg cp cfg p h
    simp only [SiglipForPretrain_resolve_config_path, pop_value, h]
    rfl
  · intro reg cp cfg v h1 h2
    simp only [SiglipForPretrain_resolve_config_path, pop_value, h1, h2]
    rfl

/-- Witness for `from_core_configure_path_precedence`: a configured path
wins; with no configured path the registry entry under the default
pretrained name is used. -/
theorem from_core_configure_path_precedence_witness :
    ((⟨none, some "/v.txt"⟩ : T5ProcessorConfig).vocab_path = some "/v.txt"
      ∧ T5Processor_from_core_configure (fun _ _ => some "rv")
          (fun s => "c:" ++ s) ⟨none, some "/v.txt"⟩ = .ok ("c:" ++ "/v.txt"))
    ∧ ((⟨none, none⟩ : T5ProcessorConfig).vocab_path = none
      ∧ (fun (_ _ : String) => some "rv")
          ((⟨none, none⟩ : T5ProcessorConfig).pretrained_name.getD
            "default-t5") "vocab" = some "rv"
      ∧ T5Processor_from_core_configure (fun _ _ => some "rv")
          (fun s => "c:" ++ s) ⟨none, none⟩ = .ok ("c:" ++ "rv"))
    ∧ ((⟨none, some "/s.json"⟩ : SiglipPretrainConfig).config_path
          = some "/s.json"
      ∧ SiglipForPretrain_resolve_config_path (fun _ _ => some "rc")
          (fun s => "c:" ++ s) ⟨none, some "/s.json"⟩
          = .ok ("c:" ++ "/s.json"))
    ∧ ((⟨none, none⟩ : SiglipPretrainConfig).config_path = none
      ∧ (fun (_ _ : String) => some "rc")
          ((⟨none, none⟩ : SiglipPretrainConfig).pretrained_name.getD
            "siglip-base-patch16-224") "config" = some "rc"
      ∧ SiglipForPretrain_resolve_config_path (fun _ _ => some "rc")
          (fun s => "c:" ++ s) ⟨none, none⟩ = .ok ("c:" ++ "rc")) :=
  ⟨⟨rfl, from_core_configure_path_precedence.1 _ _ _ _ rfl⟩,
   ⟨rfl, rfl, from_core_configure_path_precedence.2.1 _ _ _ _ rfl rfl⟩,
   ⟨rfl, from_core_configure_path_precedence.2.2.1 _ _ _ _ rfl⟩,
   ⟨rfl, rfl, from_core_configure_path_precedence.2.2.2 _ _ _ _ rfl rfl⟩⟩

/-- `path` projection of the enumerated controlnet load specs. -/
theorem enumFrom_load_weight_map_path (f : Nat → String) (l : List String) :
    ∀ n : Nat,
      ((List.enumFrom n l).map (fun iw => load_weight iw.2 (f iw.1))).map
        WeightSpec.path = l := by
  induction l with
  | nil => intro n; rfl
  | cons a as ih =>
    intro n
    show WeightSpec.path (load_weight a (f n))
        :: ((List.enumFrom (n + 1) as).map
            (fun iw => load_weight iw.2 (f iw.1))).map WeightSpec.path
      = a :: as
    rw [ih (n + 1)]
    rfl

/-- `keyPfx` projection of the enumerated controlnet load specs. -/
theorem enumFrom_load_weight_map_pfx (f : Nat → String) (l : List String) :
    ∀ n : Nat,
      ((List.enumFrom n l).map (fun iw => load_weight iw.2 (f iw.1))).map
        WeightSpec.keyPfx = (List.range' n l.length).map f := by
  induction l with
  | nil => intro n; rfl
  | cons a as ih =>
    intro n
    show WeightSpec.keyPfx (load_weight a (f n))
        :: ((List.enumFrom (n + 1) as).map
            (fun iw => load_weight iw.2 (f iw.1))).map WeightSpec.keyPfx
      = f n :: (List.range' (n + 1) as.length).map f
    rw [ih (n + 1)]
    rfl

/-- C4: with no configured `pretrained_weight_path` and existing registry
info, `MultiControlNetXLForImageInpaintingPipeline.from_core_configure`
assembles the state dicts in the order unet, text, text2, vae, then one
per controlnet weight, with key prefixes `unet.`, `text.`, `text2.`,
`vae.` and `controlnet.nets.{i}.` for the zero-based position `i`. -/
theorem mcxl_state_dict_assembly_order (pi : DiffusersPretrainInfos) :
    ∃ l, mcxl_assembleStateDict none (some pi) = some l
      ∧ l.map WeightSpec.path
          = [pi.unetWeight, pi.textWeight, pi.text2Weight, pi.vaeWeight]
              ++ pi.controlnetWeights
      ∧ l.map WeightSpec.keyPfx
          = ["unet.", "text.", "text2.", "vae."]
              ++ (List.range pi.controlnetWeights.length).map
                  (fun i => "controlnet.nets." ++ toString i ++ ".") := by
  refine ⟨_, rfl, ?_, ?_⟩
  · show (([load_weight pi.unetWeight "unet.", load_weight pi.textWeight "text.",
        load_weight pi.text2Weight "text2.", load_weight pi.vaeWeight "vae."]
        ++ (List.enumFrom 0 pi.controlnetWeights).map
            (fun iw => load_weight iw.2
              ("controlnet.nets." ++ toString iw.1 ++ "."))).map
        WeightSpec.path)
      = [pi.unetWeight, pi.textWeight, pi.text2Weight, pi.vaeWeight]
          ++ pi.controlnetWeights
    rw [List.map_append,
      enumFrom_load_weight_map_path
        (fun i => "controlnet.nets." ++ toString i ++ ".")
        pi.controlnetWeights 0]
    rfl
  · show (([load_weight pi.unetWeight "unet.", load_weight pi.textWeight "text.",
        load_weight pi.text2Weight "text2.", load_weight pi.vaeWeight "vae."]
        ++ (List.enumFrom 0 pi.controlnetWeights).map
            (fun iw => load_weight iw.2
              ("controlnet.nets." ++ toString iw.1 ++ "."))).map
        WeightSpec.keyPfx)
      = ["unet.", "text.", "text2.", "vae."]
          ++ (List.range pi.controlnetWeights.length).map
              (fun i => "controlnet.nets." ++ toString i ++ ".")
    rw [List.map_append,
      enumFrom_load_weight_map_pfx
        (fun i => "controlnet.nets." ++ toString i ++ ".")
        pi.controlnetWeights 0,
      List.range_eq_range']
    rfl

/-- C10: the resolved `controlnet_configs_path` is handled asymmetrically:
a single string is wrapped into a one-element list without `cached_path`,
while every element of a list is passed through `cached_path` — whichever
of the configured value or the registry value it came from. -/
theorem mcxl_controlnet_configs_asymmetry :
    (∀ (cachedPath : String → String) (regVal : Option StrOrList)
        (s : String),
      mcxl_resolveControlnetConfigs cachedPath (some (.str s)) regVal
        = .ok [s])
    ∧ (∀ (cachedPath : String → String) (regVal : Option StrOrList)
        (l : List String),
      mcxl_resolveControlnetConfigs cachedPath (some (.list l)) regVal
        = .ok (l.map cachedPath))
    ∧ (∀ (cachedPath : String → String) (s : String),
      mcxl_resolveControlnetConfigs cachedPath none (some (.str s))
        = .ok [s])
    ∧ (∀ (cachedPath : String → String) (l : List String),
      mcxl_resolveControlnetConfigs cachedPath none (some (.list l))
        = .ok (l.map cachedPath)) :=
  ⟨fun _ _ _ => rfl, fun _ _ _ => rfl, fun _ _ => rfl, fun _ _ => rfl⟩

/-- C5: `SiglipForTextClassification.from_core_configure` applies the
documented defaults `1`, `True`, `False`, but because line 279 reads the
misspelled option `freeze_base_Truemodel`, a `freeze_base_model` value
set in the configuration does NOT determine the `freeze_base_model`
constructor argument: the constructor always receives the value of the
(nonexistent) `freeze_base_Truemodel` option, defaulting to `True`. -/
theorem siglipTextCls_freeze_base_model_option_ignored :
    siglipTextCls_ctor_args (fun _ => none) (fun _ => none) = ⟨1, true, false⟩
    ∧ (siglipTextCls_ctor_args (fun _ => none)
        (fun name => if name = "freeze_base_model" then some false
          else none)).freeze_base_model = true
    ∧ (∀ (cfgInt : String → Option Int) (cfgBool : String → Option Bool),
        (siglipTextCls_ctor_args cfgInt cfgBool).freeze_base_model
          = (cfgBool "freeze_base_Truemodel").getD true) :=
  ⟨rfl, by decide, fun _ _ => rfl⟩

/-- C8: the scheduler class name is taken from the `_class_name` field
(default `DDPMScheduler`); construction fails with `AssertionError` if
and only if `diffusers.schedulers` lacks the attribute or the resolved
class is not a `SchedulerMixin` subclass, and succeeds with exactly that
class otherwise. -/
theorem controlNet_scheduler_resolution (env : SchedulerModule)
    (cf : Option String) :
    resolveSchedulerClass env none
      = resolveSchedulerClass env (some "DDPMScheduler")
    ∧ (resolveSchedulerClass env cf = .error .assertionError
        ↔ env.hasAttr (cf.getD "DDPMScheduler") = false
          ∨ env.isSchedulerMixinSubclass (cf.getD "DDPMScheduler") = false)
    ∧ (resolveSchedulerClass env cf = .ok (cf.getD "DDPMScheduler")
        ↔ env.hasAttr (cf.getD "DDPMScheduler") = true
          ∧ env.isSchedulerMixinSubclass (cf.getD "DDPMScheduler") = true) := by
  refine ⟨rfl, ?_, ?_⟩ <;>
    cases h1 : env.hasAttr (cf.getD "DDPMScheduler") <;>
    cases h2 : env.isSchedulerMixinSubclass (cf.getD "DDPMScheduler") <;>
    simp [resolveSchedulerClass, h1, h2]

/-- `hidden_states[-2]` succeeds with the penultimate element whenever at
least two hidden states exist. -/
theorem pyIndexNeg2_eq_penultimate {α : Type} (l : List α)
    (h : 2 ≤ l.length) : pyIndexNeg2 l = .ok (penultimate l h) := by
  simp [pyIndexNeg2, penultimate, h]

/-- C7: `ControlNetXLForText2ImageGeneration.generate` returns exactly the
library pipeline's images (converted with `torch.from_numpy`) where the
pipeline is built from the model's own vae, text encoders, unet,
controlnet and scheduler, the prompt embeddings are the penultimate
hidden states of the two text encoders concatenated along the last
dimension, and the pooled embeddings come from the second encoder. -/
theorem controlNetXL_generate_structure {T C : Type}
    (ops : TorchDiffusersOps T C) (m : ControlNetXLModel T C)
    (input_ids input2_ids negative_input_ids negative_input2_ids cond : T)
    (am a2m nam na2m : Option T) (height width : Nat) (gs : ℚ) (rng : Int)
    (h1 : 2 ≤ (m.text input_ids am).hidden_states.length)
    (h2 : 2 ≤ (m.text negative_input_ids nam).hidden_states.length)
    (h3 : 2 ≤ (m.text2 input2_ids a2m).hidden_states.length)
    (h4 : 2 ≤ (m.text2 negative_input2_ids na2m).hidden_states.length) :
    controlNetXL_generate ops m input_ids input2_ids negative_input_ids
      negative_input2_ids cond am a2m nam na2m height width gs rng
      = .ok (ops.fromNumpy (ops.sdxlControlNetPipeImages {
          pipe := ⟨m.vae, m.text, m.text2, m.unet, m.controlnet, m.scheduler⟩
          image := cond
          prompt_embeds := ops.concatLast
            (penultimate (m.text input_ids am).hidden_states h1)
            (penultimate (m.text2 input2_ids a2m).hidden_states h3)
          negative_prompt_embeds := ops.concatLast
            (penultimate (m.text negative_input_ids nam).hidden_states h2)
            (penultimate (m.text2 negative_input2_ids na2m).hidden_states h4)
          pooled_prompt_embeds := (m.text2 input2_ids a2m).first
          negative_pooled_prompt_embeds :=
            (m.text2 negative_input2_ids na2m).first
          generator := manualSeed m.seed (freshGenerator rng)
          height := height
          width := width
          guidance_scale := gs })) := by
  simp only [controlNetXL_generate]
  rw [pyIndexNeg2_eq_penultimate _ h1, pyIndexNeg2_eq_penultimate _ h2,
    pyIndexNeg2_eq_penultimate _ h3, pyIndexNeg2_eq_penultimate _ h4]
  rfl

/-- Witness for `controlNetXL_generate_structure` at a concrete model
with two hidden states per encoder call. -/
theorem controlNetXL_generate_structure_witness :
    2 ≤ (mExample.text 5 none).hidden_states.length
    ∧ 2 ≤ (mExample.text 6 none).hidden_states.length
    ∧ 2 ≤ (mExample.text2 7 none).hidden_states.length
    ∧ 2 ≤ (mExample.text2 8 none).hidden_states.length
    ∧ controlNetXL_generate opsExample mExample 5 7 6 8 9
        none none none none 1024 1024 5 42
      = .ok (opsExample.fromNumpy (opsExample.sdxlControlNetPipeImages {
          pipe := ⟨mExample.vae, mExample.text, mExample.text2,
            mExample.unet, mExample.controlnet, mExample.scheduler⟩
          image := 9
          prompt_embeds := opsExample.concatLast
            (penultimate (mExample.text 5 none).hidden_states (by decide))
            (penultimate (mExample.text2 7 none).hidden_states (by decide))
          negative_prompt_embeds := opsExample.concatLast
            (penultimate (mExample.text 6 none).hidden_states (by decide))
            (penultimate (mExample.text2 8 none).hidden_states (by decide))
          pooled_prompt_embeds := (mExample.text2 7 none).first
          negative_pooled_prompt_embeds := (mExample.text2 8 none).first
          generator := manualSeed mExample.seed (freshGenerator 42)
          height := 1024
          width := 1024
          guidance_scale := 5 })) :=
  ⟨by decide, by decide, by decide, by decide,
   controlNetXL_generate_structure opsExample mExample 5 7 6 8 9
     none none none none 1024 1024 5 42
     (by decide) (by decide) (by decide) (by decide)⟩

/-- C9: every `generate` seeds a fresh `torch.Generator` from the
instance's seed, so its output is independent of the ambient torch RNG
state; an omitted constructor seed defaults to 1123; and two successive
`__call__`s of the multi-controlnet inpainting pipeline with equal
keyword arguments return equal images (the second call re-establishes
the same seed, scheduler and freeu state before generating). -/
theorem generate_deterministic_in_model_state :
    (∀ (T C : Type) (ops : TorchDiffusersOps T C)
        (m : ControlNetXLModel T C) (i i2 n n2 c : T)
        (am a2m nam na2m : Option T) (h w : Nat) (gs : ℚ) (rng1 rng2 : Int),
      controlNetXL_generate ops m i i2 n n2 c am a2m nam na2m h w gs rng1
        = controlNetXL_generate ops m i i2 n n2 c am a2m nam na2m h w gs
            rng2)
    ∧ (∀ (T C : Type) (ops : TorchDiffusersOps T C)
        (m : ControlNetT2IModel T C) (i n c : T) (am nam : Option T)
        (h w : Nat) (gs : ℚ) (rng1 rng2 : Int),
      controlNet_generate ops m i n c am nam h w gs rng1
        = controlNet_generate ops m i n c am nam h w gs rng2)
    ∧ controlNetInitSeed none = 1123
    ∧ (∀ (T C : Type) (ops : MCXLOps T C) (st : MCXLPipeState C)
        (args : MCXLCallArgs),
      (mcxl_call ops st args).1
        = (mcxl_call ops (mcxl_call ops st args).2 args).1) := by
  refine ⟨?_, ?_, rfl, ?_⟩
  · intros; rfl
  · intros; rfl
  · intro T C ops st args
    cases h : args.scheduler <;> simp [mcxl_call, schedulerFromConfig, h]
